import Mathlib

/-!
Verification of the tf_agents excerpt: the `NormalProjectionNetwork` module
(`tf_agents/networks/normal_projection_network.py`) and the categorical DQN agent test
fixtures (`tf_agents/agents/categorical_dqn/categorical_dqn_agent_test.py`).

Tensors are embedded as (batches of) lists of scalars over a commutative ring; float
arithmetic is idealized as exact arithmetic (`ℝ` where `tanh` is involved, `ℚ` for
concrete evaluations). Shape and dtype metadata are carried explicitly so that the
dtype-check and reshape logic of the source can be stated.
-/

namespace TfAgents

/-- Element dtypes that appear in the excerpt (`tf.float32`, `tf.float64`, `tf.int32`,
`tf.int64`). Only equality of dtypes matters to the code under verification. -/
inductive DType where
  | float32
  | float64
  | int32
  | int64
deriving DecidableEq, Repr

/-- Embeds `tensor_spec.BoundedTensorSpec`: a shape, a dtype and elementwise bounds. -/
structure BoundedTensorSpec (α : Type) where
  shape : List Nat
  dtype : DType
  minimum : α
  maximum : α
deriving Repr

/-- Embeds `tanh_squash_to_spec` (normal_projection_network.py lines 33-38), elementwise:
`means + magnitudes * tanh(inputs)` with `means = (max + min)/2`,
`magnitudes = (max - min)/2`. -/
noncomputable def tanh_squash_to_spec (inputs : ℝ) (spec : BoundedTensorSpec ℝ) : ℝ :=
  let means := (spec.maximum + spec.minimum) / 2
  let magnitudes := (spec.maximum - spec.minimum) / 2
  means + magnitudes * Real.tanh inputs

/-- The tensor (componentwise) form of `tanh_squash_to_spec`: TensorFlow's `tf.tanh` and
the arithmetic broadcast over every component of the input tensor. -/
noncomputable def tanh_squash_to_spec_tensor (inputs : List ℝ) (spec : BoundedTensorSpec ℝ) :
    List ℝ :=
  inputs.map (fun v => tanh_squash_to_spec v spec)

lemma tanh_lt_one (x : ℝ) : Real.tanh x < 1 := by
  rw [Real.tanh_eq_sinh_div_cosh]
  exact (div_lt_one (Real.cosh_pos x)).mpr (Real.sinh_lt_cosh x)

lemma neg_one_lt_tanh (x : ℝ) : -1 < Real.tanh x := by
  rw [Real.tanh_eq_sinh_div_cosh]
  rw [neg_lt, ← neg_div]
  refine (div_lt_one (Real.cosh_pos x)).mpr ?_
  have h := Real.cosh_add_sinh x
  have he := Real.exp_pos x
  nlinarith

/-- C1: for every input tensor and every bounded spec with `minimum ≤ maximum`,
`tanh_squash_to_spec` equals `(max+min)/2 + ((max-min)/2) * tanh x` componentwise, and
every component of the result lies within `[minimum, maximum]`. -/
theorem tanh_squash_to_spec_correct (x : List ℝ) (spec : BoundedTensorSpec ℝ)
    (h : spec.minimum ≤ spec.maximum) :
    tanh_squash_to_spec_tensor x spec =
      x.map (fun v =>
        (spec.maximum + spec.minimum) / 2 + (spec.maximum - spec.minimum) / 2 * Real.tanh v) ∧
    ∀ y ∈ tanh_squash_to_spec_tensor x spec, spec.minimum ≤ y ∧ y ≤ spec.maximum := by
  constructor
  · rfl
  · intro y hy
    rw [tanh_squash_to_spec_tensor, List.mem_map] at hy
    obtain ⟨v, _, rfl⟩ := hy
    have h1 := tanh_lt_one v
    have h2 := neg_one_lt_tanh v
    constructor
    · rw [tanh_squash_to_spec]
      nlinarith
    · rw [tanh_squash_to_spec]
      nlinarith

/-- A concrete bounded spec used to instantiate the C1 theorem. -/
def specC1 : BoundedTensorSpec ℝ :=
  { shape := [1], dtype := DType.float32, minimum := 0, maximum := 2 }

/-- Witness for C1: the theorem instantiated at input `[0]` and the concrete spec
with bounds `[0, 2]`. -/
theorem tanh_squash_to_spec_correct_witness :
    specC1.minimum ≤ specC1.maximum ∧
    (tanh_squash_to_spec_tensor [0] specC1 =
      [(0 : ℝ)].map (fun v =>
        (specC1.maximum + specC1.minimum) / 2 +
          (specC1.maximum - specC1.minimum) / 2 * Real.tanh v) ∧
    ∀ y ∈ tanh_squash_to_spec_tensor [0] specC1, specC1.minimum ≤ y ∧ y ≤ specC1.maximum) :=
  ⟨by norm_num [specC1], tanh_squash_to_spec_correct [0] specC1 (by norm_num [specC1])⟩

/-- A tensor: a dtype, the outer (batch) dimensions, and the data stored as one flat
feature vector per batch element (the trailing dimensions flattened). -/
structure Tensor (α : Type) where
  dtype : DType
  outerShape : List Nat
  data : List (List α)
deriving Repr

/-- Embeds `tf.keras.layers.Dense`: `kernel` holds one weight row per output unit (the
transpose of the Keras `[input_dim, units]` kernel), `bias` one entry per unit, and an
optional elementwise activation. -/
structure DenseLayer (α : Type) where
  kernel : List (List α)
  bias : List α
  activation : Option (α → α)

/-- Applies a dense layer to one feature vector: `activation(x · W + b)` per output unit. -/
def DenseLayer.apply [CommRing α] (layer : DenseLayer α) (x : List α) : List α :=
  List.zipWith
    (fun w b =>
      let z := (List.zipWith (fun wi xi => wi * xi) w x).sum + b
      match layer.activation with
      | some f => f z
      | none => z)
    layer.kernel layer.bias

/-- Embeds `bias_layer.BiasLayer`: adds a learned bias vector to its input. -/
structure BiasLayer (α : Type) where
  bias : List α

/-- Applies the bias layer: elementwise `input + bias`. -/
def BiasLayer.apply [CommRing α] (layer : BiasLayer α) (x : List α) : List α :=
  List.zipWith (fun a b => a + b) x layer.bias

/-- The parameters of the `tfp.distributions.Normal` built by
`output_spec.build_distribution(loc=means, scale=stds)`; `scaled_to_spec` records whether
`distribution_builder` wrapped the distribution with `scale_distribution_to_spec`. -/
structure NormalDistParams (α : Type) where
  loc : Tensor α
  scale : Tensor α
  scaled_to_spec : Bool

/-- Embeds the state of a constructed `NormalProjectionNetwork` (normal_projection_network.py
lines 52-122). When `state_dependent_std` is false the source stores a `BiasLayer` in
`self._bias` and leaves `self._stddev_projection_layer = None`; when it is true the source
creates no `_bias` attribute, which we model by a `bias` field that `call` never reads in
that branch. -/
structure NormalProjectionNetwork (α : Type) where
  sample_spec : BoundedTensorSpec α
  mean_transform : Option (α → BoundedTensorSpec α → α)
  std_transform : Option (α → α)
  state_dependent_std : Bool
  scale_distribution : Bool
  means_projection_layer : DenseLayer α
  stddev_projection_layer : Option (DenseLayer α)
  bias : BiasLayer α

/-- The means path of `NormalProjectionNetwork.call` (lines 153-159): the dense means
projection, `tf.reshape(means, [-1] + shape)` (each batch element's features stay one flat
vector of `shape.prod` entries), the optional `mean_transform` when the distribution is not
scaled afterwards, and `tf.cast` to the sample dtype (dtype metadata only; arithmetic is
exact). -/
def NormalProjectionNetwork.meansOut [CommRing α] (net : NormalProjectionNetwork α)
    (flatInputs : List (List α)) : List (List α) :=
  let means0 := flatInputs.map (DenseLayer.apply net.means_projection_layer)
  if net.scale_distribution = false then
    match net.mean_transform with
    | some f => means0.map (fun row => row.map (fun v => f v net.sample_spec))
    | none => means0
  else means0

/-- The stds path of `NormalProjectionNetwork.call` (lines 161-169): either the stddev
projection of the input (state-dependent case) or the `BiasLayer` applied to
`tf.zeros_like(means)`, followed by the optional `std_transform` and the cast to the sample
dtype. -/
def NormalProjectionNetwork.stdsOut [CommRing α] (net : NormalProjectionNetwork α)
    (flatInputs : List (List α)) : List (List α) :=
  let stds0 :=
    if net.state_dependent_std then
      match net.stddev_projection_layer with
      | some layer => flatInputs.map (DenseLayer.apply layer)
      | none => []
    else
      (NormalProjectionNetwork.meansOut net flatInputs).map
        (fun row => BiasLayer.apply net.bias (row.map (fun _ => 0)))
  match net.std_transform with
  | some f => stds0.map (fun row => row.map f)
  | none => stds0

/-- Embeds `NormalProjectionNetwork.call` (lines 143-174). The dtype check fires before any
layer is applied. `BatchSquash.flatten`/`unflatten` only move shape metadata: the data is
already stored as a flat batch, so flatten is the identity on `data` and unflatten restores
the original `outerShape`. -/
def NormalProjectionNetwork.call [CommRing α] (net : NormalProjectionNetwork α)
    (inputs : Tensor α) (outerRank : Nat) : Except String (NormalDistParams α) :=
  if inputs.dtype ≠ net.sample_spec.dtype then
    Except.error ("Inputs to NormalProjectionNetwork must match the sample_spec.dtype.")
  else
    Except.ok
      { loc := { dtype := net.sample_spec.dtype, outerShape := inputs.outerShape,
                 data := NormalProjectionNetwork.meansOut net inputs.data }
        scale := { dtype := net.sample_spec.dtype, outerShape := inputs.outerShape,
                   data := NormalProjectionNetwork.stdsOut net inputs.data }
        scaled_to_spec := net.scale_distribution }

/-- A nest of bounded tensor specs in the sense of `tf.nest`: a bare spec, an empty
structure, or a structure with several entries (lists/tuples modelled as cons pairs).
`tf.nest.flatten` of a bare spec is the one-element list. -/
inductive SpecNest (α : Type) where
  | leaf (spec : BoundedTensorSpec α)
  | empty
  | pair (left right : SpecNest α)

/-- Embeds `tf.nest.flatten` restricted to nests of specs. -/
def SpecNest.flatten : SpecNest α → List (BoundedTensorSpec α)
  | .leaf s => [s]
  | .empty => []
  | .pair l r => SpecNest.flatten l ++ SpecNest.flatten r

/-- Embeds `NormalProjectionNetwork.__init__` (lines 52-122). The constructor first checks
`len(tf.nest.flatten(sample_spec)) != 1` and raises `ValueError` before building any layer.
On success it builds the means projection layer (`Zeros` bias initializer), and either a
stddev projection layer or a `BiasLayer`, both with the `Constant(std_bias_initializer_value)`
bias initializer, each sized by `sample_spec.shape.num_elements()`. The randomly initialized
(`VarianceScaling`) kernels are passed in explicitly as `meansKernel`/`stddevKernel`. -/
def NormalProjectionNetwork.init [CommRing α] (sample_spec : SpecNest α)
    (activation_fn : Option (α → α)) (std_bias_initializer_value : α)
    (mean_transform : Option (α → BoundedTensorSpec α → α)) (std_transform : Option (α → α))
    (state_dependent_std scale_distribution : Bool)
    (meansKernel stddevKernel : List (List α)) :
    Except String (NormalProjectionNetwork α) :=
  if (SpecNest.flatten sample_spec).length ≠ 1 then
    Except.error ("Normal Projection network only supports single spec samples.")
  else
    match SpecNest.flatten sample_spec with
    | [spec] =>
        Except.ok
          { sample_spec := spec
            mean_transform := mean_transform
            std_transform := std_transform
            state_dependent_std := state_dependent_std
            scale_distribution := scale_distribution
            means_projection_layer :=
              { kernel := meansKernel
                bias := List.replicate spec.shape.prod 0
                activation := activation_fn }
            stddev_projection_layer :=
              if state_dependent_std then
                some { kernel := stddevKernel
                       bias := List.replicate spec.shape.prod std_bias_initializer_value
                       activation := activation_fn }
              else none
            bias := { bias := List.replicate spec.shape.prod std_bias_initializer_value } }
    | _ => Except.error ("Normal Projection network only supports single spec samples.")

/-- C9: `NormalProjectionNetwork.call` raises `ValueError` exactly when the input tensor's
dtype differs from the sample spec's dtype (and in the embedding the error branch precedes
every layer application). -/
theorem normal_projection_call_dtype_check [CommRing α] (net : NormalProjectionNetwork α)
    (inputs : Tensor α) (outerRank : Nat) :
    (∃ e, NormalProjectionNetwork.call net inputs outerRank = Except.error e) ↔
      inputs.dtype ≠ net.sample_spec.dtype := by
  by_cases h : inputs.dtype = net.sample_spec.dtype
  · simp [NormalProjectionNetwork.call, h]
  · simp [NormalProjectionNetwork.call, h]

/-- C8: `NormalProjectionNetwork.__init__` raises `ValueError` exactly when the flattened
`sample_spec` does not consist of exactly one component spec; with a single-component spec
construction succeeds. -/
theorem normal_projection_init_single_spec [CommRing α] (sampleSpec : SpecNest α)
    (act : Option (α → α)) (v : α) (mt : Option (α → BoundedTensorSpec α → α))
    (st : Option (α → α)) (sds sd : Bool) (mk sk : List (List α)) :
    (∃ e, NormalProjectionNetwork.init sampleSpec act v mt st sds sd mk sk =
      Except.error e) ↔ (SpecNest.flatten sampleSpec).length ≠ 1 := by
  by_cases h : (SpecNest.flatten sampleSpec).length = 1
  · obtain ⟨s, hs⟩ := List.length_eq_one.mp h
    simp [NormalProjectionNetwork.init, hs]
  · simp [NormalProjectionNetwork.init, h]

lemma denseLayer_apply_length [CommRing α] (layer : DenseLayer α) (x : List α) :
    (DenseLayer.apply layer x).length = min layer.kernel.length layer.bias.length := by
  simp [DenseLayer.apply]

lemma meansOut_length [CommRing α] (net : NormalProjectionNetwork α) (xs : List (List α)) :
    (NormalProjectionNetwork.meansOut net xs).length = xs.length := by
  unfold NormalProjectionNetwork.meansOut
  cases hsc : net.scale_distribution <;> cases net.mean_transform <;> simp

lemma meansOut_row_length [CommRing α] (net : NormalProjectionNetwork α) (xs : List (List α))
    (hkern : net.means_projection_layer.kernel.length = net.sample_spec.shape.prod)
    (hmb : net.means_projection_layer.bias.length = net.sample_spec.shape.prod) :
    ∀ row ∈ NormalProjectionNetwork.meansOut net xs,
      row.length = net.sample_spec.shape.prod := by
  intro row hrow
  unfold NormalProjectionNetwork.meansOut at hrow
  cases hsc : net.scale_distribution <;> rw [hsc] at hrow <;>
    cases hmt : net.mean_transform <;> simp [hmt] at hrow <;>
    obtain ⟨v, hv, rfl⟩ := hrow <;>
    simp [denseLayer_apply_length, hkern, hmb]

lemma zipWith_add_map_zero [CommRing α] (l b : List α) (h : b.length ≤ l.length) :
    List.zipWith (fun a c => a + c) (l.map (fun _ => (0 : α))) b = b := by
  induction l generalizing b with
  | nil =>
      cases b with
      | nil => rfl
      | cons y ys => simp at h
  | cons x xs ih =>
      cases b with
      | nil => rfl
      | cons y ys =>
          have h' : ys.length ≤ xs.length := by simpa using h
          simp only [List.map_cons, List.zipWith_cons_cons, zero_add, ih ys h']

lemma stdsOut_const [CommRing α] (net : NormalProjectionNetwork α) (xs : List (List α))
    (hsds : net.state_dependent_std = false)
    (hkern : net.means_projection_layer.kernel.length = net.sample_spec.shape.prod)
    (hmb : net.means_projection_layer.bias.length = net.sample_spec.shape.prod)
    (hbias : net.bias.bias.length = net.sample_spec.shape.prod) :
    NormalProjectionNetwork.stdsOut net xs =
      List.replicate xs.length
        (match net.std_transform with
         | some f => net.bias.bias.map f
         | none => net.bias.bias) := by
  have hzero : ∀ row ∈ NormalProjectionNetwork.meansOut net xs,
      BiasLayer.apply net.bias (row.map (fun _ => (0 : α))) = net.bias.bias := by
    intro row hrow
    have hlen := meansOut_row_length net xs hkern hmb row hrow
    unfold BiasLayer.apply
    exact zipWith_add_map_zero row net.bias.bias (by rw [hlen, hbias])
  have hstds0 : (NormalProjectionNetwork.meansOut net xs).map
      (fun row => BiasLayer.apply net.bias (row.map (fun _ => (0 : α)))) =
      List.replicate xs.length net.bias.bias := by
    rw [List.map_congr_left hzero]
    rw [List.map_const']
    rw [meansOut_length]
  unfold NormalProjectionNetwork.stdsOut
  rw [hsds]
  simp only [Bool.false_eq_true, if_false]
  cases hst : net.std_transform with
  | none => exact hstds0
  | some f =>
      rw [hstds0]
      simp

/-- C2: with a matching input dtype and `scale_distribution=False` (and the default
state-independent std), `call` returns a Normal whose `loc` is the dense means projection
of the input passed through `mean_transform` when one is given, reshaped to the sample
spec's shape, and whose `scale` is `std_transform` applied to the std pre-activation (the
constant bias). -/
theorem normal_projection_call_normal_params [CommRing α] (net : NormalProjectionNetwork α)
    (inputs : Tensor α) (outerRank : Nat)
    (hdtype : inputs.dtype = net.sample_spec.dtype)
    (hscale : net.scale_distribution = false)
    (hsds : net.state_dependent_std = false)
    (hkern : net.means_projection_layer.kernel.length = net.sample_spec.shape.prod)
    (hmb : net.means_projection_layer.bias.length = net.sample_spec.shape.prod)
    (hbias : net.bias.bias.length = net.sample_spec.shape.prod) :
    ∃ d : NormalDistParams α,
      NormalProjectionNetwork.call net inputs outerRank = Except.ok d ∧
      d.loc.data =
        (match net.mean_transform with
         | some f =>
             (inputs.data.map (DenseLayer.apply net.means_projection_layer)).map
               (fun row => row.map (fun v => f v net.sample_spec))
         | none => inputs.data.map (DenseLayer.apply net.means_projection_layer)) ∧
      (∀ row ∈ d.loc.data, row.length = net.sample_spec.shape.prod) ∧
      d.loc.outerShape = inputs.outerShape ∧
      d.loc.dtype = net.sample_spec.dtype ∧
      d.scale.data =
        List.replicate inputs.data.length
          (match net.std_transform with
           | some f => net.bias.bias.map f
           | none => net.bias.bias) ∧
      d.scale.outerShape = inputs.outerShape ∧
      d.scale.dtype = net.sample_spec.dtype ∧
      d.scaled_to_spec = false := by
  have hcall : NormalProjectionNetwork.call net inputs outerRank = Except.ok
      { loc := { dtype := net.sample_spec.dtype, outerShape := inputs.outerShape,
                 data := NormalProjectionNetwork.meansOut net inputs.data }
        scale := { dtype := net.sample_spec.dtype, outerShape := inputs.outerShape,
                   data := NormalProjectionNetwork.stdsOut net inputs.data }
        scaled_to_spec := net.scale_distribution } := by
    rw [NormalProjectionNetwork.call, if_neg (by simp [hdtype])]
  refine ⟨_, hcall, ?_, ?_, rfl, rfl, ?_, rfl, rfl, hscale⟩
  · simp only [NormalProjectionNetwork.meansOut, hscale]
    simp
  · exact meansOut_row_length net inputs.data hkern hmb
  · exact stdsOut_const net inputs.data hsds hkern hmb hbias

/-- C10: when `state_dependent_std` is false, the scale of the returned distribution does
not depend on the input data: two inputs with the same dtype and (batch) shape produce the
same scale, namely `std_transform` applied to the constant bias, once per batch element. -/
theorem normal_projection_std_independent_of_input [CommRing α]
    (net : NormalProjectionNetwork α) (x1 x2 : Tensor α) (outerRank : Nat)
    (hsds : net.state_dependent_std = false)
    (hd1 : x1.dtype = net.sample_spec.dtype)
    (hd2 : x2.dtype = net.sample_spec.dtype)
    (hshape : x1.outerShape = x2.outerShape)
    (hlen : x1.data.length = x2.data.length)
    (hkern : net.means_projection_layer.kernel.length = net.sample_spec.shape.prod)
    (hmb : net.means_projection_layer.bias.length = net.sample_spec.shape.prod)
    (hbias : net.bias.bias.length = net.sample_spec.shape.prod) :
    ∃ d1 d2 : NormalDistParams α,
      NormalProjectionNetwork.call net x1 outerRank = Except.ok d1 ∧
      NormalProjectionNetwork.call net x2 outerRank = Except.ok d2 ∧
      d1.scale = d2.scale ∧
      d1.scale.data =
        List.replicate x1.data.length
          (match net.std_transform with
           | some f => net.bias.bias.map f
           | none => net.bias.bias) := by
  have hcall1 : NormalProjectionNetwork.call net x1 outerRank = Except.ok
      { loc := { dtype := net.sample_spec.dtype, outerShape := x1.outerShape,
                 data := NormalProjectionNetwork.meansOut net x1.data }
        scale := { dtype := net.sample_spec.dtype, outerShape := x1.outerShape,
                   data := NormalProjectionNetwork.stdsOut net x1.data }
        scaled_to_spec := net.scale_distribution } := by
    rw [NormalProjectionNetwork.call, if_neg (by simp [hd1])]
  have hcall2 : NormalProjectionNetwork.call net x2 outerRank = Except.ok
      { loc := { dtype := net.sample_spec.dtype, outerShape := x2.outerShape,
                 data := NormalProjectionNetwork.meansOut net x2.data }
        scale := { dtype := net.sample_spec.dtype, outerShape := x2.outerShape,
                   data := NormalProjectionNetwork.stdsOut net x2.data }
        scaled_to_spec := net.scale_distribution } := by
    rw [NormalProjectionNetwork.call, if_neg (by simp [hd2])]
  have hs1 := stdsOut_const net x1.data hsds hkern hmb hbias
  have hs2 := stdsOut_const net x2.data hsds hkern hmb hbias
  refine ⟨_, _, hcall1, hcall2, ?_, hs1⟩
  simp only []
  rw [hs1, hs2, hlen, hshape]

/-- A concrete single-component projection network over `ℚ` used to instantiate the
theorems about `NormalProjectionNetwork.call`. -/
def npnExample : NormalProjectionNetwork ℚ :=
  { sample_spec := { shape := [1], dtype := DType.float32, minimum := -1, maximum := 1 }
    mean_transform := none
    std_transform := some (fun v => v + 1)
    state_dependent_std := false
    scale_distribution := false
    means_projection_layer := { kernel := [[1, 1]], bias := [0], activation := none }
    stddev_projection_layer := none
    bias := { bias := [1/2] } }

/-- A concrete batch-of-two input tensor matching `npnExample`'s sample dtype. -/
def tensorExample1 : Tensor ℚ :=
  { dtype := DType.float32, outerShape := [2], data := [[1, 2], [3, 4]] }

/-- A second concrete input tensor of the same shape and dtype as `tensorExample1`. -/
def tensorExample2 : Tensor ℚ :=
  { dtype := DType.float32, outerShape := [2], data := [[5, 6], [7, 8]] }

/-- Witness for C2: the theorem instantiated at the concrete network and input. -/
theorem normal_projection_call_normal_params_witness :
    (tensorExample1.dtype = npnExample.sample_spec.dtype ∧
     npnExample.scale_distribution = false ∧
     npnExample.state_dependent_std = false ∧
     npnExample.means_projection_layer.kernel.length = npnExample.sample_spec.shape.prod ∧
     npnExample.means_projection_layer.bias.length = npnExample.sample_spec.shape.prod ∧
     npnExample.bias.bias.length = npnExample.sample_spec.shape.prod) ∧
    ∃ d : NormalDistParams ℚ,
      NormalProjectionNetwork.call npnExample tensorExample1 1 = Except.ok d ∧
      d.loc.data =
        (match npnExample.mean_transform with
         | some f =>
             (tensorExample1.data.map
               (DenseLayer.apply npnExample.means_projection_layer)).map
               (fun row => row.map (fun v => f v npnExample.sample_spec))
         | none =>
             tensorExample1.data.map
               (DenseLayer.apply npnExample.means_projection_layer)) ∧
      (∀ row ∈ d.loc.data, row.length = npnExample.sample_spec.shape.prod) ∧
      d.loc.outerShape = tensorExample1.outerShape ∧
      d.loc.dtype = npnExample.sample_spec.dtype ∧
      d.scale.data =
        List.replicate tensorExample1.data.length
          (match npnExample.std_transform with
           | some f => npnExample.bias.bias.map f
           | none => npnExample.bias.bias) ∧
      d.scale.outerShape = tensorExample1.outerShape ∧
      d.scale.dtype = npnExample.sample_spec.dtype ∧
      d.scaled_to_spec = false :=
  ⟨⟨rfl, rfl, rfl, rfl, rfl, rfl⟩,
   normal_projection_call_normal_params npnExample tensorExample1 1 rfl rfl rfl rfl rfl rfl⟩

/-- Witness for C10: the theorem instantiated at the concrete network and two inputs of
the same shape and dtype. -/
theorem normal_projection_std_independent_of_input_witness :
    (npnExample.state_dependent_std = false ∧
     tensorExample1.dtype = npnExample.sample_spec.dtype ∧
     tensorExample2.dtype = npnExample.sample_spec.dtype ∧
     tensorExample1.outerShape = tensorExample2.outerShape ∧
     tensorExample1.data.length = tensorExample2.data.length) ∧
    ∃ d1 d2 : NormalDistParams ℚ,
      NormalProjectionNetwork.call npnExample tensorExample1 1 = Except.ok d1 ∧
      NormalProjectionNetwork.call npnExample tensorExample2 1 = Except.ok d2 ∧
      d1.scale = d2.scale ∧
      d1.scale.data =
        List.replicate tensorExample1.data.length
          (match npnExample.std_transform with
           | some f => npnExample.bias.bias.map f
           | none => npnExample.bias.bias) :=
  ⟨⟨rfl, rfl, rfl, rfl, rfl⟩,
   normal_projection_std_independent_of_input npnExample tensorExample1 tensorExample2 1
     rfl rfl rfl rfl rfl rfl rfl rfl⟩

/-- Embeds `DummyCategoricalNet` (categorical_dqn_agent_test.py lines 36-84): a single
dense layer producing `num_actions * num_atoms` units. -/
structure DummyCategoricalNet (α : Type) where
  num_atoms : Nat
  num_actions : Nat
  dummy_layer : DenseLayer α

/-- Embeds the constant weight initialization of `DummyCategoricalNet.__init__` for the
source's `num_actions = 2`: the Keras kernel is
`[[0, 1, ..., num_atoms-1, 1, ..., 1], [1, ..., 1]]` (shape `[2, 2*num_atoms]`), stored
here transposed (one row `[w0, 1]` per output unit `j`, with `w0 = j` for `j < num_atoms`
and `w0 = 1` otherwise), and the bias is all ones. -/
def DummyCategoricalNet.make (α : Type) [CommRing α] (num_atoms : Nat) :
    DummyCategoricalNet α :=
  { num_atoms := num_atoms
    num_actions := 2
    dummy_layer :=
      { kernel :=
          (List.range (2 * num_atoms)).map
            (fun j => [if j < num_atoms then (j : α) else 1, 1])
        bias := List.replicate (2 * num_atoms) 1
        activation := none } }

/-- Reshape one flat row of `a * z` entries into `a` rows of `z` entries
(`tf.reshape(inputs, [-1, num_actions, num_atoms])` acting on one batch element). -/
def reshapeRow [CommRing α] (a z : Nat) (v : List α) : List (List α) :=
  (List.range a).map (fun i => (List.range z).map (fun j => v.getD (i * z + j) 0))

/-- Embeds `DummyCategoricalNet.call` (lines 79-84): cast to float32 (dtype bookkeeping
only; arithmetic is exact), apply the dense layers, reshape the result to
`[-1, num_actions, num_atoms]` and return it with the (unchanged) network state. -/
def DummyCategoricalNet.call [CommRing α] (net : DummyCategoricalNet α)
    (inputs : List (List α)) (network_state : σ) : List (List (List α)) × σ :=
  (inputs.map
     (fun row => reshapeRow net.num_actions net.num_atoms
       (DenseLayer.apply net.dummy_layer row)),
   network_state)

/-- C7: for every batch of inputs, `DummyCategoricalNet.call` returns logits of shape
`[batch, num_actions, num_atoms]` — one vector over the fixed support of `num_atoms`
atoms per action — together with the unchanged network state. -/
theorem dummy_categorical_net_call_shape [CommRing α] {σ : Type}
    (net : DummyCategoricalNet α) (inputs : List (List α)) (network_state : σ) :
    (DummyCategoricalNet.call net inputs network_state).2 = network_state ∧
    (DummyCategoricalNet.call net inputs network_state).1.length = inputs.length ∧
    ∀ l ∈ (DummyCategoricalNet.call net inputs network_state).1,
      l.length = net.num_actions ∧ ∀ r ∈ l, r.length = net.num_atoms := by
  refine ⟨rfl, by simp [DummyCategoricalNet.call], ?_⟩
  intro l hl
  rw [DummyCategoricalNet.call] at hl
  simp only [List.mem_map] at hl
  obtain ⟨row, _, rfl⟩ := hl
  constructor
  · simp [reshapeRow]
  · intro r hr
    rw [reshapeRow] at hr
    simp only [List.mem_map] at hr
    obtain ⟨i, _, rfl⟩ := hr
    simp

/-- Modelled from the spec: the `CategoricalDqnAgent` implementation (the n-step return
computation behind `agent._discounted_returns`) is not under `src/`, only its test is. The
spec's glossary defines the n-step return as "A multi-step discounted return used in place
of a single-step TD target": each step's reward is accumulated, discounted by the product
of the discounts of the preceding steps. -/
def nStepDiscountedReturn : List ℚ → List ℚ → ℚ
  | [], _ => 0
  | r :: rs, ds => r + ds.headD 1 * nStepDiscountedReturn rs ds.tail

/-- Modelled from the spec: the discount applied to the final value in the n-step TD
target (`agent._final_value_discount`) is the product of the per-step discounts. -/
def finalValueDiscount (discounts : List ℚ) : ℚ := discounts.prod

/-- C3: with `n_step_update=2`, per-step rewards `[10, 20]` and per-step discounts
`[0.9, 0.9]` on each of the two transitions, the n-step discounted returns are
`[[19], [38]]` (`10 + 0.9*10` and `20 + 0.9*20`) and the final-value discount is
`[[0.81], [0.81]]` (`0.9*0.9`); exact equality implies the test's `1e-3` tolerance. -/
theorem categorical_dqn_nstep_returns :
    [[nStepDiscountedReturn [10, 10] [9/10, 9/10]],
     [nStepDiscountedReturn [20, 20] [9/10, 9/10]]] = [[(19 : ℚ)], [38]] ∧
    [[finalValueDiscount [9/10, 9/10]], [finalValueDiscount [9/10, 9/10]]] =
      [[(81/100 : ℚ)], [81/100]] ∧
    |nStepDiscountedReturn [10, 10] [9/10, 9/10] - 19| ≤ 1/1000 ∧
    |nStepDiscountedReturn [20, 20] [9/10, 9/10] - 38| ≤ 1/1000 ∧
    |finalValueDiscount [9/10, 9/10] - 81/100| ≤ 1/1000 := by
  norm_num [nStepDiscountedReturn, finalValueDiscount]

/-- Modelled from the spec: the `CategoricalDqnAgent` and its Q-networks are not under
`src/`, only the test is. The spec's glossary defines the target network as "A
periodically-synchronized copy of the value network": `agent.initialize()` synchronizes
every variable of the target Q-network to the corresponding Q-network variable. Variables
are embedded as a list of value tensors per network. -/
structure CategoricalDqnAgentVars where
  q_network_variables : List (List ℚ)
  target_q_network_variables : List (List ℚ)

/-- Modelled from the spec: the synchronization performed by `agent.initialize()`: the
target network's variables become a copy of the Q-network's variables. -/
def CategoricalDqnAgentVars.initTargets (a : CategoricalDqnAgentVars) :
    CategoricalDqnAgentVars :=
  { a with target_q_network_variables := a.q_network_variables }

lemma mem_zip_self_eq {β : Type} (l : List β) : ∀ p ∈ List.zip l l, p.1 = p.2 := by
  induction l with
  | nil => intro p hp; simp at hp
  | cons x xs ih =>
      intro p hp
      rw [List.zip_cons_cons, List.mem_cons] at hp
      rcases hp with hp | hp
      · rw [hp]
      · exact ih p hp

/-- C5: after `agent.initialize()` runs, every variable of the target Q-network equals the
corresponding variable of the Q-network, and (when the Q-network has variables) both
variable lists are non-empty. -/
theorem agent_init_synchronizes_target (a : CategoricalDqnAgentVars)
    (h : a.q_network_variables ≠ []) :
    ( CategoricalDqnAgentVars.initTargets a).target_q_network_variables =
      ( CategoricalDqnAgentVars.initTargets a).q_network_variables ∧
    (∀ p ∈ List.zip ( CategoricalDqnAgentVars.initTargets a).q_network_variables
        ( CategoricalDqnAgentVars.initTargets a).target_q_network_variables, p.1 = p.2) ∧
    ( CategoricalDqnAgentVars.initTargets a).q_network_variables ≠ [] ∧
    ( CategoricalDqnAgentVars.initTargets a).target_q_network_variables ≠ [] := by
  refine ⟨rfl, ?_, h, h⟩
  exact mem_zip_self_eq a.q_network_variables

/-- Concrete agent-variable state used to instantiate the C5 theorem. -/
def agentVarsExample : CategoricalDqnAgentVars :=
  { q_network_variables := [[1, 2], [3]], target_q_network_variables := [[0, 0], [0]] }

/-- Witness for C5: the theorem instantiated at a concrete agent state. -/
theorem agent_init_synchronizes_target_witness :
    agentVarsExample.q_network_variables ≠ [] ∧
    (( CategoricalDqnAgentVars.initTargets agentVarsExample).target_q_network_variables =
      ( CategoricalDqnAgentVars.initTargets agentVarsExample).q_network_variables ∧
    (∀ p ∈ List.zip
        ( CategoricalDqnAgentVars.initTargets agentVarsExample).q_network_variables
        ( CategoricalDqnAgentVars.initTargets agentVarsExample).target_q_network_variables,
        p.1 = p.2) ∧
    ( CategoricalDqnAgentVars.initTargets agentVarsExample).q_network_variables ≠ [] ∧
    ( CategoricalDqnAgentVars.initTargets agentVarsExample).target_q_network_variables
      ≠ []) :=
  ⟨by decide, agent_init_synchronizes_target agentVarsExample (by decide)⟩

/-- Modelled from the spec: the agent's action spec, a bounded scalar integer range
`[minimum, maximum]` of discrete actions. -/
structure ActionSpec where
  minimum : ℤ
  maximum : ℤ

/-- Index of a maximal element of a list (first one in case of ties), 0 for the empty
list; models the argmax over per-action values taken by the greedy Q policy. -/
def argmaxIdx : List ℚ → Nat
  | [] => 0
  | x :: xs => if x < xs.getD (argmaxIdx xs) x then argmaxIdx xs + 1 else 0

lemma argmaxIdx_lt_length (l : List ℚ) (h : l ≠ []) : argmaxIdx l < l.length := by
  induction l with
  | nil => exact absurd rfl h
  | cons x xs ih =>
      simp only [argmaxIdx, List.length_cons]
      split
      · rename_i hlt
        rcases eq_or_ne xs [] with hxs | hxs
        · subst hxs
          simp at hlt
        · exact Nat.succ_lt_succ (ih hxs)
      · omega

/-- Modelled from the spec: the categorical DQN agent's policy is not under `src/`; the
spec describes a value-based agent, whose policy picks, per observation, the action with
the greatest estimated value from the discrete action space. `q` gives the per-action
value estimates for one observation. -/
def greedyAction (spec : ActionSpec) (qvals : List ℚ) : ℤ :=
  spec.minimum + (argmaxIdx qvals : ℤ)

/-- Modelled from the spec: `agent.policy.action` applied to a batch of observations:
one greedy action per observation. -/
def policyActionBatch (spec : ActionSpec) (q : List ℚ → List ℚ)
    (observations : List (List ℚ)) : List ℤ :=
  observations.map (fun o => greedyAction spec (q o))

/-- C6: for every batch of observations, the actions returned by the policy have the
batch shape of the input, and every returned action lies within
`[action_spec.minimum, action_spec.maximum]`. -/
theorem policy_actions_within_spec (spec : ActionSpec) (q : List ℚ → List ℚ)
    (observations : List (List ℚ))
    (hs : spec.minimum ≤ spec.maximum)
    (hq : ∀ o ∈ observations, (q o).length = (spec.maximum - spec.minimum + 1).toNat) :
    (policyActionBatch spec q observations).length = observations.length ∧
    ∀ a ∈ policyActionBatch spec q observations,
      spec.minimum ≤ a ∧ a ≤ spec.maximum := by
  constructor
  · simp [policyActionBatch]
  · intro a ha
    rw [policyActionBatch] at ha
    simp only [List.mem_map] at ha
    obtain ⟨o, ho, rfl⟩ := ha
    have hlen := hq o ho
    have hpos : 0 < (q o).length := by
      rw [hlen]
      omega
    have hidx := argmaxIdx_lt_length (q o) (List.length_pos.mp hpos)
    rw [hlen] at hidx
    have hcast : (argmaxIdx (q o) : ℤ) < ((spec.maximum - spec.minimum + 1).toNat : ℤ) := by
      exact_mod_cast hidx
    unfold greedyAction
    omega

/-- A concrete two-action spec used to instantiate the C6 theorem. -/
def actionSpecExample : ActionSpec := { minimum := 0, maximum := 1 }

/-- Witness for C6: the theorem instantiated at a batch of two observations and a
concrete two-action value function. -/
theorem policy_actions_within_spec_witness :
    (actionSpecExample.minimum ≤ actionSpecExample.maximum ∧
     ∀ o ∈ [[(1 : ℚ), 2], [3, 4]], ((fun _ => [(1 : ℚ), 2]) o).length =
       (actionSpecExample.maximum - actionSpecExample.minimum + 1).toNat) ∧
    ((policyActionBatch actionSpecExample (fun _ => [(1 : ℚ), 2])
        [[(1 : ℚ), 2], [3, 4]]).length = ([[(1 : ℚ), 2], [3, 4]] : List (List ℚ)).length ∧
     ∀ a ∈ policyActionBatch actionSpecExample (fun _ => [(1 : ℚ), 2])
        [[(1 : ℚ), 2], [3, 4]],
       actionSpecExample.minimum ≤ a ∧ a ≤ actionSpecExample.maximum) :=
  ⟨⟨by decide, by decide⟩,
   policy_actions_within_spec actionSpecExample (fun _ => [(1 : ℚ), 2])
     [[(1 : ℚ), 2], [3, 4]] (by decide) (by decide)⟩

end TfAgents
